import Mathlib

/-!
Shallow embedding of `src/server.js` (Pidie Ride mock API).

Collections of the lowdb document store become lists of records; each
Express handler becomes a pure function from its authenticated caller,
its parsed inputs and the store to a pair of result (`Except ApiError r`
mirroring the JSON error statuses) and the store after the handler ran.
Error paths in the source return before any `.write()`, so they pair the
error with the unchanged store. Timestamps (`new Date().toISOString()`)
are abstracted as a parameter `t`. JavaScript numeric coercion
(`Number(x) || 0`) is modelled by `JsNum`; `undefined`/absent JSON
fields by `Option`.
-/

namespace PidieRide

/-- Roles carried in the JWT payload (`req.user.role`). -/
inductive Role
  | customer
  | driver
  | partner
  | admin
deriving DecidableEq, Repr

/-- Authenticated caller, the `req.user` payload: `{ id, role }`. -/
structure Auth where
  id : Nat
  role : Role
deriving DecidableEq, Repr

/-- Error statuses surfaced by the handlers: 401, 403, 404, 400. -/
inductive ApiError
  | unauthorized
  | forbidden
  | notFound
  | badRequest
deriving DecidableEq, Repr

/-- JavaScript numeric input: a value that coerces to a number, a value
whose `Number(...)` is `NaN` (non-numeric string, object, ...), or an
absent field (`undefined`, whose `Number` is also `NaN`). -/
inductive JsNum
  | missing
  | nonNumeric
  | num (n : Int)
deriving DecidableEq, Repr

/-- JS `Number(x) || 0`: a value coercing to a number keeps it (0 stays
0 since `0 || 0` is 0); `NaN` (missing or non-numeric) falls to 0. -/
def JsNum.orZero : JsNum → Int
  | .num n => n
  | .missing => 0
  | .nonNumeric => 0

/-- JS `reason || null` applied to an optional string request field:
an absent reason and the empty string both collapse to `null`. -/
def orNull : Option String → Option String
  | none => none
  | some s => if s = "" then none else some s

/-- JS `x || ""` applied to an optional string request field. -/
def orEmpty : Option String → String
  | none => ""
  | some s => s

/-- lowdb `get(c).find({id}).assign(f).write()`: lodash `_.find` returns
the first match, and only that record is mutated; no match mutates
nothing. -/
def updateFirst (p : α → Bool) (f : α → α) : List α → List α
  | [] => []
  | x :: xs => if p x then f x :: xs else x :: updateFirst p f xs

/-- Id assignment used by every creation handler:
`(coll.length) ? Math.max(...coll.map(x => x.id)) + 1 : 1`. -/
def newId (ids : List Nat) : Nat :=
  match ids with
  | [] => 1
  | _ :: _ => ids.foldl Nat.max 0 + 1

/-! ## Data model (records of the db.json collections) -/

/-- Menu item (collection `menu`), created by `POST /api/partners/menu`. -/
structure MenuItem where
  id : Nat
  name : String
  price : Int
  description : String
  category : String
  partnerId : Nat
deriving DecidableEq, Repr

/-- Denormalized order line item as stored on an order
(`{ menuId, name, qty, price }`). -/
structure OrderItem where
  menuId : Nat
  name : String
  qty : Int
  price : Int
deriving DecidableEq, Repr

/-- Order record (collection `orders`). -/
structure Order where
  id : Nat
  customerId : Nat
  partnerId : Nat
  items : List OrderItem
  total : Int
  status : String
  deliveryAddress : String
  paymentMethod : String
  createdAt : Nat
  rejectReason : Option String := none
deriving DecidableEq, Repr

/-- Delivery record (collection `deliveries`), spawned by order
creation. -/
structure Delivery where
  id : Nat
  orderId : Nat
  status : String
  pickupAddress : String
  dropAddress : String
  driverId : Option Nat
  collectedAmount : Option Int := none
  rejectReason : Option String := none
deriving DecidableEq, Repr

/-- Ride record (collection `rides`); the two location objects are kept
as their `address` field, the only part the handlers read. -/
structure Ride where
  id : Nat
  customerId : Nat
  pickupAddress : String
  dropAddress : String
  vehicleType : String
  status : String
  createdAt : Nat
  driverId : Option Nat
  fareCollected : Option Int := none
  rejectReason : Option String := none
deriving DecidableEq, Repr

/-- Notification record (collection `notifications`). -/
structure Notification where
  id : Nat
  userId : Nat
  message : String
  read : Bool
deriving DecidableEq, Repr

/-- Partner account (collection `partners`): the fields the modelled
handlers read. -/
structure Partner where
  id : Nat
  name : String
  address : String
deriving DecidableEq, Repr

/-- Driver account (collection `drivers`): the fields the modelled
handlers read. -/
structure Driver where
  id : Nat
  name : String
deriving DecidableEq, Repr

/-- Admin account (collection `admin`); `POST /api/admin/register`
stores the request body with an assigned id, so an extra `name` field
is carried through. -/
structure AdminAccount where
  id : Nat
  email : String
  password : String
  name : Option String
deriving DecidableEq, Repr

/-- The document store (`db.json`). -/
structure Store where
  partners : List Partner
  drivers : List Driver
  menu : List MenuItem
  orders : List Order
  deliveries : List Delivery
  rides : List Ride
  notifications : List Notification
  admin : List AdminAccount
deriving DecidableEq, Repr

/-! ## Request bodies -/

/-- Line item of an order request body: `{ menuId, quantity }`. -/
structure ItemReq where
  menuId : Nat
  quantity : JsNum
deriving DecidableEq, Repr

/-- Body of `POST /api/customers/orders`. -/
structure OrderBody where
  partnerId : Option Nat
  items : Option (List ItemReq)
  deliveryAddress : String
  paymentMethod : String
deriving DecidableEq, Repr

/-- Location object in a ride request (`{ address, ... }`). -/
structure Loc where
  address : String
deriving DecidableEq, Repr

/-- Body of `POST /api/customers/rides`. -/
structure RideBody where
  pickupLocation : Loc
  dropLocation : Loc
  vehicleType : String
deriving DecidableEq, Repr

/-- Body of `POST /api/partners/menu`. -/
structure MenuBody where
  name : String
  price : JsNum
  description : Option String
  category : Option String
deriving DecidableEq, Repr

/-- Body of `PUT /api/partners/menu/:menuId`; the handler applies
`assign(req.body)` wholesale, so every stored field (including `id` and
`partnerId`) may appear in the body and overwrite the record. -/
structure MenuUpdate where
  id : Option Nat := none
  partnerId : Option Nat := none
  name : Option String := none
  price : Option Int := none
  description : Option String := none
  category : Option String := none
deriving DecidableEq, Repr

/-- lodash `assign(menuItem, body)`: present body fields overwrite. -/
def assignMenu (b : MenuUpdate) (m : MenuItem) : MenuItem :=
  { id := b.id.getD m.id
    partnerId := b.partnerId.getD m.partnerId
    name := b.name.getD m.name
    price := b.price.getD m.price
    description := b.description.getD m.description
    category := b.category.getD m.category }

/-- Body of `PUT /api/partners/profile` (`assign(req.body)` on the
partner record; the fields the model carries). -/
structure PartnerUpdate where
  name : Option String := none
  address : Option String := none
deriving DecidableEq, Repr

/-- lodash `assign(partner, body)`. -/
def assignPartner (b : PartnerUpdate) (p : Partner) : Partner :=
  { id := p.id
    name := b.name.getD p.name
    address := b.address.getD p.address }

/-- Body of `POST /api/admin/register`. -/
structure AdminRegBody where
  email : Option String
  password : Option String
  name : Option String := none
deriving DecidableEq, Repr

/-! ## Response shapes -/

/-- Success body of `POST /api/customers/orders`. -/
structure OrderResp where
  id : Nat
  customerId : Nat
  partnerId : Nat
  total : Int
  status : String
  createdAt : Nat
deriving DecidableEq, Repr

/-- Success body of `POST /api/customers/rides` (only the address
strings of the two locations are echoed). -/
structure RideResp where
  id : Nat
  customerId : Nat
  pickupAddress : String
  dropAddress : String
  status : String
  createdAt : Nat
deriving DecidableEq, Repr

/-- Success body of `GET /api/customers/rides/:id`. -/
structure RideDetail where
  id : Nat
  status : String
  driver : Option (Nat × String)
  pickupAddress : String
  dropAddress : String
deriving DecidableEq, Repr

/-- Success body of `POST /api/partners/menu`. -/
structure MenuResp where
  id : Nat
  name : String
  price : Int
  partnerId : Nat
deriving DecidableEq, Repr

/-- Success body of `POST /api/admin/register`: the stored record with
the `password` field destructured away. -/
structure AdminSafe where
  id : Nat
  email : String
  name : Option String
deriving DecidableEq, Repr

/-! ## Handlers

Each handler returns the JSON result paired with the store after the
request; source error paths return before any write, hence pair with
the incoming store. -/

/-- Per-line resolution inside `POST /api/customers/orders`: look up the
menu item by `{ id: it.menuId, partnerId }`; an unmatched item prices
at 0 with name "Unknown"; `qty` is `Number(it.quantity) || 0`. -/
def detailedItem (menuList : List MenuItem) (pid : Nat) (it : ItemReq) : OrderItem :=
  match menuList.find? (fun m => m.id == it.menuId && m.partnerId == pid) with
  | some m => { menuId := it.menuId, name := m.name, qty := it.quantity.orZero, price := m.price }
  | none => { menuId := it.menuId, name := "Unknown", qty := it.quantity.orZero, price := 0 }

/-- Handler of `POST /api/customers/orders` (create order; spawns one
delivery). Validation `!partnerId || !items || items.length === 0`
covers the absent and JS-falsy cases. The running `total` and the
`detailedItems` array are built in one pass over `items`, as in the
source's `items.map` with the `total +=` side effect. -/
def createOrder (u : Auth) (b : OrderBody) (t : Nat) (s : Store) :
    Except ApiError OrderResp × Store :=
  if u.role ≠ Role.customer then (.error .forbidden, s) else
  match b.partnerId, b.items with
  | some pid, some items =>
    if pid == 0 || items.isEmpty then (.error .badRequest, s) else
    let acc := items.foldl
      (fun (a : Int × List OrderItem) it =>
        let li := detailedItem s.menu pid it
        (a.1 + li.price * li.qty, a.2 ++ [li]))
      (0, [])
    let oid := newId (s.orders.map Order.id)
    let o : Order :=
      { id := oid, customerId := u.id, partnerId := pid, items := acc.2,
        total := acc.1, status := "pending",
        deliveryAddress := b.deliveryAddress,
        paymentMethod := b.paymentMethod, createdAt := t }
    let s1 : Store := { s with orders := s.orders ++ [o] }
    let did := newId (s1.deliveries.map Delivery.id)
    let d : Delivery :=
      { id := did, orderId := o.id, status := "ready",
        pickupAddress :=
          match s1.partners.find? (fun p => p.id == pid) with
          | some p => p.address
          | none => "",
        dropAddress := b.deliveryAddress, driverId := none }
    let s2 : Store := { s1 with deliveries := s1.deliveries ++ [d] }
    (.ok { id := o.id, customerId := o.customerId, partnerId := o.partnerId,
           total := o.total, status := o.status, createdAt := o.createdAt }, s2)
  | _, _ => (.error .badRequest, s)

/-- Handler of `GET /api/customers/orders/:id`. -/
def getCustomerOrder (u : Auth) (i : Nat) (s : Store) :
    Except ApiError Order × Store :=
  if u.role ≠ Role.customer then (.error .forbidden, s) else
  match s.orders.find? (fun o => o.id == i) with
  | none => (.error .notFound, s)
  | some o =>
    if o.customerId ≠ u.id then (.error .forbidden, s) else (.ok o, s)

/-- Handler of `POST /api/customers/orders/:id/cancel`. -/
def cancelOrder (u : Auth) (i : Nat) (s : Store) :
    Except ApiError String × Store :=
  if u.role ≠ Role.customer then (.error .forbidden, s) else
  match s.orders.find? (fun o => o.id == i) with
  | none => (.error .notFound, s)
  | some o =>
    if o.customerId ≠ u.id then (.error .forbidden, s) else
    (.ok "Order cancelled",
     { s with orders := updateFirst (fun x => x.id == i) (fun x => { x with status := "cancelled" }) s.orders })

/-- Handler of `POST /api/customers/rides` (create ride). -/
def createRide (u : Auth) (b : RideBody) (t : Nat) (s : Store) :
    Except ApiError RideResp × Store :=
  if u.role ≠ Role.customer then (.error .forbidden, s) else
  let rid := newId (s.rides.map Ride.id)
  let r : Ride :=
    { id := rid, customerId := u.id,
      pickupAddress := b.pickupLocation.address,
      dropAddress := b.dropLocation.address,
      vehicleType := b.vehicleType, status := "pending",
      createdAt := t, driverId := none }
  (.ok { id := r.id, customerId := r.customerId,
         pickupAddress := b.pickupLocation.address,
         dropAddress := b.dropLocation.address,
         status := r.status, createdAt := r.createdAt },
   { s with rides := s.rides ++ [r] })

/-- Handler of `GET /api/customers/rides/:id`. -/
def getCustomerRide (u : Auth) (i : Nat) (s : Store) :
    Except ApiError RideDetail × Store :=
  if u.role ≠ Role.customer then (.error .forbidden, s) else
  match s.rides.find? (fun r => r.id == i) with
  | none => (.error .notFound, s)
  | some r =>
    if r.customerId ≠ u.id then (.error .forbidden, s) else
    let drv :=
      match r.driverId with
      | none => none
      | some did =>
        match s.drivers.find? (fun d => d.id == did) with
        | some d => some (d.id, d.name)
        | none => none
    (.ok { id := r.id, status := r.status, driver := drv,
           pickupAddress := r.pickupAddress, dropAddress := r.dropAddress }, s)

/-- Handler of `POST /api/customers/rides/:id/cancel`. -/
def cancelRide (u : Auth) (i : Nat) (s : Store) :
    Except ApiError String × Store :=
  if u.role ≠ Role.customer then (.error .forbidden, s) else
  match s.rides.find? (fun r => r.id == i) with
  | none => (.error .notFound, s)
  | some r =>
    if r.customerId ≠ u.id then (.error .forbidden, s) else
    (.ok "Ride cancelled",
     { s with rides := updateFirst (fun x => x.id == i) (fun x => { x with status := "cancelled" }) s.rides })

/-- Handler of `POST /api/customers/notifications/:id/read`. -/
def markNotificationRead (u : Auth) (i : Nat) (s : Store) :
    Except ApiError String × Store :=
  if u.role ≠ Role.customer then (.error .forbidden, s) else
  match s.notifications.find? (fun n => n.id == i) with
  | none => (.error .notFound, s)
  | some n =>
    if n.userId ≠ u.id then (.error .forbidden, s) else
    (.ok "Notification marked as read",
     { s with notifications := updateFirst (fun x => x.id == i) (fun x => { x with read := true }) s.notifications })

/-- Handler of `GET /api/drivers/deliveries`: deliveries that are
`ready` or assigned to this driver. -/
def listDeliveries (u : Auth) (s : Store) :
    Except ApiError (List Delivery) × Store :=
  if u.role ≠ Role.driver then (.error .forbidden, s) else
  (.ok (s.deliveries.filter
    (fun d => d.status == "ready" || d.driverId == some u.id)), s)

/-- Handler of `POST /api/drivers/deliveries/:id/accept`. -/
def acceptDelivery (u : Auth) (i : Nat) (s : Store) :
    Except ApiError String × Store :=
  if u.role ≠ Role.driver then (.error .forbidden, s) else
  match s.deliveries.find? (fun d => d.id == i) with
  | none => (.error .notFound, s)
  | some _ =>
    (.ok "Delivery accepted",
     { s with deliveries := updateFirst (fun x => x.id == i) (fun x => { x with status := "accepted", driverId := some u.id }) s.deliveries })

/-- Handler of `POST /api/drivers/deliveries/:id/reject`. -/
def rejectDelivery (u : Auth) (i : Nat) (reason : Option String) (s : Store) :
    Except ApiError String × Store :=
  if u.role ≠ Role.driver then (.error .forbidden, s) else
  match s.deliveries.find? (fun d => d.id == i) with
  | none => (.error .notFound, s)
  | some _ =>
    (.ok "Delivery rejected",
     { s with deliveries := updateFirst (fun x => x.id == i) (fun x => { x with status := "rejected", rejectReason := orNull reason }) s.deliveries })

/-- Handler of `POST /api/drivers/deliveries/:id/start`: the source
performs no existence lookup before the write. -/
def startDelivery (u : Auth) (i : Nat) (s : Store) :
    Except ApiError String × Store :=
  if u.role ≠ Role.driver then (.error .forbidden, s) else
  (.ok "Delivery started",
   { s with deliveries := updateFirst (fun x => x.id == i) (fun x => { x with status := "ongoing" }) s.deliveries })

/-- Handler of `POST /api/drivers/deliveries/:id/complete`: the source
performs no existence lookup; the response echoes the coerced amount. -/
def completeDelivery (u : Auth) (i : Nat) (amount : JsNum) (s : Store) :
    Except ApiError (String × Int) × Store :=
  if u.role ≠ Role.driver then (.error .forbidden, s) else
  (.ok ("Delivery completed", amount.orZero),
   { s with deliveries := updateFirst (fun x => x.id == i) (fun x => { x with status := "completed", collectedAmount := some amount.orZero }) s.deliveries })

/-- Handler of `POST /api/drivers/rides/:id/accept`. -/
def acceptRide (u : Auth) (i : Nat) (s : Store) :
    Except ApiError String × Store :=
  if u.role ≠ Role.driver then (.error .forbidden, s) else
  match s.rides.find? (fun r => r.id == i) with
  | none => (.error .notFound, s)
  | some _ =>
    (.ok "Ride accepted",
     { s with rides := updateFirst (fun x => x.id == i) (fun x => { x with status := "ongoing", driverId := some u.id }) s.rides })

/-- Handler of `POST /api/drivers/rides/:id/reject`: the source performs
no existence lookup before the write. -/
def rejectRide (u : Auth) (i : Nat) (reason : Option String) (s : Store) :
    Except ApiError String × Store :=
  if u.role ≠ Role.driver then (.error .forbidden, s) else
  (.ok "Ride rejected",
   { s with rides := updateFirst (fun x => x.id == i) (fun x => { x with status := "rejected", rejectReason := orNull reason }) s.rides })

/-- Handler of `POST /api/drivers/rides/:id/start`: the source performs
no existence lookup before the write. -/
def startRide (u : Auth) (i : Nat) (s : Store) :
    Except ApiError String × Store :=
  if u.role ≠ Role.driver then (.error .forbidden, s) else
  (.ok "Ride started",
   { s with rides := updateFirst (fun x => x.id == i) (fun x => { x with status := "ongoing" }) s.rides })

/-- Handler of `POST /api/drivers/rides/:id/complete`: the source
performs no existence lookup; the response echoes the coerced fare. -/
def completeRide (u : Auth) (i : Nat) (fare : JsNum) (s : Store) :
    Except ApiError (String × Int) × Store :=
  if u.role ≠ Role.driver then (.error .forbidden, s) else
  (.ok ("Ride completed", fare.orZero),
   { s with rides := updateFirst (fun x => x.id == i) (fun x => { x with status := "completed", fareCollected := some fare.orZero }) s.rides })

/-- Handler of `POST /api/partners/menu` (add menu item). -/
def createMenu (u : Auth) (b : MenuBody) (s : Store) :
    Except ApiError MenuResp × Store :=
  if u.role ≠ Role.partner then (.error .forbidden, s) else
  let nid := newId (s.menu.map MenuItem.id)
  let item : MenuItem :=
    { id := nid, name := b.name, price := b.price.orZero,
      description := orEmpty b.description, category := orEmpty b.category,
      partnerId := u.id }
  (.ok { id := item.id, name := item.name, price := item.price,
         partnerId := item.partnerId },
   { s with menu := s.menu ++ [item] })

/-- Handler of `PUT /api/partners/menu/:menuId`: the 404 check matches
`{ id, partnerId: caller }`, but the write then matches `{ id }` only
and applies `assign(req.body)` wholesale. -/
def updateMenu (u : Auth) (menuId : Nat) (b : MenuUpdate) (s : Store) :
    Except ApiError String × Store :=
  if u.role ≠ Role.partner then (.error .forbidden, s) else
  match s.menu.find? (fun m => m.id == menuId && m.partnerId == u.id) with
  | none => (.error .notFound, s)
  | some _ =>
    (.ok "Menu updated",
     { s with menu := updateFirst (fun m => m.id == menuId) (assignMenu b) s.menu })

/-- Handler of `DELETE /api/partners/menu/:menuId`: lodash
`remove({id})` removes every record matching the id. -/
def deleteMenu (u : Auth) (menuId : Nat) (s : Store) :
    Except ApiError String × Store :=
  if u.role ≠ Role.partner then (.error .forbidden, s) else
  match s.menu.find? (fun m => m.id == menuId && m.partnerId == u.id) with
  | none => (.error .notFound, s)
  | some _ =>
    (.ok "Menu deleted",
     { s with menu := s.menu.filter (fun m => !(m.id == menuId)) })

/-- Handler of `PUT /api/partners/profile`. -/
def putPartnerProfile (u : Auth) (b : PartnerUpdate) (s : Store) :
    Except ApiError String × Store :=
  if u.role ≠ Role.partner then (.error .forbidden, s) else
  (.ok "Profile updated",
   { s with partners := updateFirst (fun p => p.id == u.id) (assignPartner b) s.partners })

/-- Handler of `GET /api/partners/orders/:orderId`. -/
def getPartnerOrder (u : Auth) (i : Nat) (s : Store) :
    Except ApiError Order × Store :=
  if u.role ≠ Role.partner then (.error .forbidden, s) else
  match s.orders.find? (fun o => o.id == i) with
  | none => (.error .notFound, s)
  | some o =>
    if o.partnerId ≠ u.id then (.error .forbidden, s) else (.ok o, s)

/-- Handler of `POST /api/partners/orders/:orderId/accept`. -/
def acceptOrder (u : Auth) (i : Nat) (s : Store) :
    Except ApiError String × Store :=
  if u.role ≠ Role.partner then (.error .forbidden, s) else
  match s.orders.find? (fun o => o.id == i) with
  | none => (.error .notFound, s)
  | some o =>
    if o.partnerId ≠ u.id then (.error .forbidden, s) else
    (.ok "Order accepted",
     { s with orders := updateFirst (fun x => x.id == i) (fun x => { x with status := "accepted" }) s.orders })

/-- Handler of `POST /api/partners/orders/:orderId/reject`. -/
def rejectOrder (u : Auth) (i : Nat) (reason : Option String) (s : Store) :
    Except ApiError String × Store :=
  if u.role ≠ Role.partner then (.error .forbidden, s) else
  match s.orders.find? (fun o => o.id == i) with
  | none => (.error .notFound, s)
  | some o =>
    if o.partnerId ≠ u.id then (.error .forbidden, s) else
    (.ok "Order rejected",
     { s with orders := updateFirst (fun x => x.id == i) (fun x => { x with status := "rejected", rejectReason := orNull reason }) s.orders })

/-- Handler of `POST /api/partners/orders/:orderId/ready`. -/
def readyOrder (u : Auth) (i : Nat) (s : Store) :
    Except ApiError String × Store :=
  if u.role ≠ Role.partner then (.error .forbidden, s) else
  match s.orders.find? (fun o => o.id == i) with
  | none => (.error .notFound, s)
  | some o =>
    if o.partnerId ≠ u.id then (.error .forbidden, s) else
    (.ok "Order ready",
     { s with orders := updateFirst (fun x => x.id == i) (fun x => { x with status := "ready" }) s.orders })

/-- Handler of `POST /api/admin/register`: no `requireAuth` middleware
and no role check; validates only `!admin.email || !admin.password`
(absent or empty-string fields are JS-falsy); assigns the id, stores
the body, and responds with the record minus `password`. -/
def adminRegister (b : AdminRegBody) (s : Store) :
    Except ApiError AdminSafe × Store :=
  match b.email, b.password with
  | some e, some p =>
    if e = "" || p = "" then (.error .badRequest, s) else
    let nid := newId (s.admin.map AdminAccount.id)
    let a : AdminAccount := { id := nid, email := e, password := p, name := b.name }
    (.ok { id := a.id, email := a.email, name := a.name },
     { s with admin := s.admin ++ [a] })
  | _, _ => (.error .badRequest, s)

/-! ## Helper lemmas about the store primitives -/

theorem updateFirst_of_none {α} {p : α → Bool} {l : List α}
    (h : l.find? p = none) (f : α → α) : updateFirst p f l = l := by
  induction l with
  | nil => rfl
  | cons x xs ih =>
    cases hp : p x with
    | true =>
      rw [List.find?_cons_of_pos _ hp] at h
      exact absurd h (by simp)
    | false =>
      rw [List.find?_cons_of_neg _ (by simp [hp])] at h
      simp [updateFirst, hp, ih h]

theorem map_updateFirst {α β} {p : α → Bool} {f : α → α} {g : α → β}
    (hg : ∀ x, g (f x) = g x) : ∀ l : List α, (updateFirst p f l).map g = l.map g
  | [] => rfl
  | x :: xs => by
    cases hp : p x with
    | true => simp [updateFirst, hp, hg]
    | false => simp [updateFirst, hp, map_updateFirst hg xs]

theorem find?_updateFirst {α} {p : α → Bool} {f : α → α}
    (hf : ∀ x, p x = true → p (f x) = true) :
    ∀ {l : List α} {x : α}, l.find? p = some x →
      (updateFirst p f l).find? p = some (f x)
  | [], x, h => by simp at h
  | a :: l, x, h => by
    cases hp : p a with
    | true =>
      rw [List.find?_cons_of_pos _ hp] at h
      obtain rfl : a = x := by injection h
      simp [updateFirst, hp, List.find?_cons_of_pos _ (hf a hp)]
    | false =>
      rw [List.find?_cons_of_neg _ (by simp [hp])] at h
      simp only [updateFirst, hp, Bool.false_eq_true, if_false]
      rw [List.find?_cons_of_neg _ (by simp [hp])]
      exact find?_updateFirst hf h

theorem le_foldl_max : ∀ (l : List Nat) (a : Nat), a ≤ l.foldl Nat.max a
  | [], _ => le_refl _
  | x :: xs, a =>
    le_trans (Nat.le_max_left a x) (le_foldl_max xs (Nat.max a x))

theorem mem_le_foldl_max :
    ∀ {l : List Nat} {x : Nat}, x ∈ l → ∀ a, x ≤ l.foldl Nat.max a := by
  intro l
  induction l with
  | nil => intro x h; cases h
  | cons y ys ih =>
    intro x h a
    rcases List.mem_cons.mp h with h1 | h2
    · subst h1
      exact le_trans (Nat.le_max_right a x) (le_foldl_max ys _)
    · exact ih h2 _

theorem foldl_max_mem : ∀ (l : List Nat) (a : Nat), l.foldl Nat.max a ∈ a :: l
  | [], a => by simp
  | x :: xs, a => by
    have h := foldl_max_mem xs (Nat.max a x)
    have hfold : (x :: xs).foldl Nat.max a = xs.foldl Nat.max (Nat.max a x) := rfl
    rcases List.mem_cons.mp h with h1 | h2
    · have h3 : Nat.max a x = a ∨ Nat.max a x = x := max_choice a x
      rcases h3 with h3 | h3 <;> rw [hfold, h1, h3] <;> simp
    · rw [hfold]
      exact List.mem_cons_of_mem _ (List.mem_cons_of_mem _ h2)

theorem foldl_max_zero_mem {l : List Nat} (h : l ≠ []) :
    l.foldl Nat.max 0 ∈ l := by
  rcases List.mem_cons.mp (foldl_max_mem l 0) with h0 | hm
  · cases l with
    | nil => exact absurd rfl h
    | cons x xs =>
      have hx : x ≤ (x :: xs).foldl Nat.max 0 :=
        mem_le_foldl_max (List.mem_cons_self x xs) 0
      rw [h0] at hx
      have hx0 : x = 0 := Nat.le_zero.mp hx
      rw [h0, ← hx0]
      exact List.mem_cons_self x xs
  · exact hm

theorem newId_not_mem (l : List Nat) : newId l ∉ l := by
  cases l with
  | nil => simp [newId]
  | cons x xs =>
    intro hmem
    have h := mem_le_foldl_max hmem 0
    have h2 : newId (x :: xs) = (x :: xs).foldl Nat.max 0 + 1 := rfl
    rw [h2] at h
    omega

theorem mem_lt_newId {l : List Nat} {x : Nat} (h : x ∈ l) : x < newId l := by
  have h1 := mem_le_foldl_max h 0
  cases l with
  | nil => cases h
  | cons y ys =>
    have h2 : newId (y :: ys) = (y :: ys).foldl Nat.max 0 + 1 := rfl
    omega

/-- Unfolding of the one-pass total/items accumulation in `createOrder`
into a map and a sum. -/
theorem foldl_detailed (menuList : List MenuItem) (pid : Nat) :
    ∀ (l : List ItemReq) (a : Int) (acc : List OrderItem),
      l.foldl (fun (x : Int × List OrderItem) it =>
          let li := detailedItem menuList pid it
          (x.1 + li.price * li.qty, x.2 ++ [li])) (a, acc)
        = (a + ((l.map (detailedItem menuList pid)).map
              (fun li => li.price * li.qty)).sum,
           acc ++ l.map (detailedItem menuList pid))
  | [], a, acc => by simp
  | it :: l, a, acc => by
    simp only [List.foldl_cons, List.map_cons, List.sum_cons]
    rw [foldl_detailed menuList pid l]
    simp only [Prod.mk.injEq]
    constructor
    · ring
    · simp

/-- Frame lemma: `putPartnerProfile` only touches the partners
collection. -/
theorem putPartnerProfile_deliveries (v : Auth) (pb : PartnerUpdate) (s : Store) :
    ((putPartnerProfile v pb s).2).deliveries = s.deliveries := by
  unfold putPartnerProfile
  split <;> rfl

/-- Commuting `map MenuItem.id` with the id-based filter used by menu
deletion. -/
theorem map_id_filter (l : List MenuItem) (mId : Nat) :
    (l.filter (fun m => !(m.id == mId))).map MenuItem.id
      = (l.map MenuItem.id).filter (fun x => !(x == mId)) := by
  induction l with
  | nil => rfl
  | cons x xs ih =>
    cases hx : x.id == mId with
    | true => simp [List.filter_cons, hx, ih]
    | false => simp [List.filter_cons, hx, ih]

/-! ## Concrete stores used by counterexamples and witnesses -/

/-- Store with every collection empty. -/
def emptyStore : Store :=
  { partners := [], drivers := [], menu := [], orders := [], deliveries := [],
    rides := [], notifications := [], admin := [] }

/-- Menu item 1 of partner 1. -/
def menuItemA : MenuItem :=
  { id := 1, name := "nasi", price := 10, description := "", category := "", partnerId := 1 }

/-- Menu item 2 of partner 1 (holds the maximum id of `storeMenu2`). -/
def menuItemB : MenuItem :=
  { id := 2, name := "mie", price := 20, description := "", category := "", partnerId := 1 }

/-- Store holding the two menu items of partner 1. -/
def storeMenu2 : Store := { emptyStore with menu := [menuItemA, menuItemB] }

/-! ## Claims -/

/-- C1 counterexample: `POST /api/drivers/deliveries/:id/start` called by
a driver on an id that resolves to no delivery does not return NotFound;
it answers 200 "Delivery started" (the source performs no existence
lookup in this handler), refuting the claim that every transition
operation returns NotFound on a non-existent id. -/
theorem C1_counterexample :
    (startDelivery ⟨1, Role.driver⟩ 1 emptyStore).1 = Except.ok "Delivery started" ∧
    (startDelivery ⟨1, Role.driver⟩ 1 emptyStore).1 ≠ Except.error ApiError.notFound ∧
    emptyStore.deliveries.find? (fun d => d.id == 1) = none :=
  ⟨rfl, fun h => Except.noConfusion h, rfl⟩

/-- C1 (amended): with a correctly-roled caller and an id resolving to
no record in the relevant collection, the transition handlers that do
look the resource up (order cancel/accept/reject/ready, delivery
accept/reject, ride accept/cancel) return NotFound with the store
untouched, while delivery start/complete and ride reject/start/complete
perform no existence check and return success — though the store is
still unchanged, since the no-match write mutates no record. -/
theorem C1_missing_id (ud uc up : Auth) (i : Nat) (s : Store)
    (reason : Option String) (amt : JsNum)
    (hd : ud.role = Role.driver) (hc : uc.role = Role.customer)
    (hp : up.role = Role.partner)
    (hdel : s.deliveries.find? (fun d => d.id == i) = none)
    (hord : s.orders.find? (fun o => o.id == i) = none)
    (hrid : s.rides.find? (fun r => r.id == i) = none) :
    acceptDelivery ud i s = (.error .notFound, s) ∧
    rejectDelivery ud i reason s = (.error .notFound, s) ∧
    acceptRide ud i s = (.error .notFound, s) ∧
    cancelOrder uc i s = (.error .notFound, s) ∧
    cancelRide uc i s = (.error .notFound, s) ∧
    acceptOrder up i s = (.error .notFound, s) ∧
    rejectOrder up i reason s = (.error .notFound, s) ∧
    readyOrder up i s = (.error .notFound, s) ∧
    startDelivery ud i s = (.ok "Delivery started", s) ∧
    completeDelivery ud i amt s = (.ok ("Delivery completed", amt.orZero), s) ∧
    rejectRide ud i reason s = (.ok "Ride rejected", s) ∧
    startRide ud i s = (.ok "Ride started", s) ∧
    completeRide ud i amt s = (.ok ("Ride completed", amt.orZero), s) := by
  refine ⟨?_, ?_, ?_, ?_, ?_, ?_, ?_, ?_, ?_, ?_, ?_, ?_, ?_⟩ <;>
    simp [acceptDelivery, rejectDelivery, acceptRide, cancelOrder, cancelRide,
      acceptOrder, rejectOrder, readyOrder, startDelivery, completeDelivery,
      rejectRide, startRide, completeRide, hd, hc, hp, hdel, hord, hrid,
      updateFirst_of_none hdel, updateFirst_of_none hrid]

/-- C1 witness: the amended statement evaluated on the empty store. -/
theorem C1_missing_id_witness :
    emptyStore.deliveries.find? (fun d => d.id == 1) = none ∧
    acceptDelivery ⟨1, Role.driver⟩ 1 emptyStore = (.error .notFound, emptyStore) ∧
    startDelivery ⟨1, Role.driver⟩ 1 emptyStore = (.ok "Delivery started", emptyStore) := by
  have h := C1_missing_id ⟨1, Role.driver⟩ ⟨2, Role.customer⟩ ⟨3, Role.partner⟩
    1 emptyStore none JsNum.missing rfl rfl rfl rfl rfl rfl
  exact ⟨rfl, h.1, h.2.2.2.2.2.2.2.2.1⟩

/-- Body used by concrete menu-creation scenarios. -/
def menuBodyC : MenuBody :=
  { name := "teh", price := JsNum.num 5, description := none, category := none }

/-- Unfolding of `newId` on a nonempty id list. -/
theorem newId_eq_max_add_one {l : List Nat} (h : l ≠ []) :
    newId l = l.foldl Nat.max 0 + 1 := by
  cases l with
  | nil => exact absurd rfl h
  | cons x xs => rfl

/-- Ids of the menu collection after `createMenu`: the created item
carries `newId` of the previous ids and is appended at the end. -/
theorem createMenu_ids (u : Auth) (b : MenuBody) (s : Store)
    (hrole : u.role = Role.partner) :
    (createMenu u b s).2.menu.map MenuItem.id
      = s.menu.map MenuItem.id ++ [newId (s.menu.map MenuItem.id)] := by
  simp [createMenu, hrole]

/-- C3 counterexample: with menu ids 1 and 2, deleting the item holding
the maximum id (2) and creating a new item assigns id 2 again — the id
of the just-deleted record — refuting "ids are never reused for the
lifetime of the store even after deletions". -/
theorem C3_counterexample :
    2 ∈ storeMenu2.menu.map MenuItem.id ∧
    ((createMenu ⟨1, Role.partner⟩ menuBodyC
        ((deleteMenu ⟨1, Role.partner⟩ 2 storeMenu2).2)).2.menu.map MenuItem.id)
      = [1, 2] := by
  decide

/-- C3 (amended): a newly created resource's id equals max(existing
ids)+1 (1 when the collection is empty) and strictly exceeds every
stored id, so ids stay unique within the collection at every instant;
after a deletion the same rule applies to the remaining ids, so the id
of a deleted maximum CAN be reassigned (ids are reused after
deletions), and after deleting the maximum the next id is
max(remaining)+1, never 1 while items remain. -/
theorem C3_id_assignment (u : Auth) (b : MenuBody) (s : Store) (mId : Nat)
    (it : MenuItem)
    (hrole : u.role = Role.partner)
    (hfind : s.menu.find? (fun m => m.id == mId && m.partnerId == u.id) = some it) :
    ((createMenu u b s).2.menu.map MenuItem.id
      = s.menu.map MenuItem.id ++ [newId (s.menu.map MenuItem.id)]) ∧
    newId (s.menu.map MenuItem.id) ∉ s.menu.map MenuItem.id ∧
    (s.menu.map MenuItem.id = [] → newId (s.menu.map MenuItem.id) = 1) ∧
    (∀ x ∈ s.menu.map MenuItem.id, x < newId (s.menu.map MenuItem.id)) ∧
    (s.menu.map MenuItem.id ≠ [] →
      (s.menu.map MenuItem.id).foldl Nat.max 0 ∈ s.menu.map MenuItem.id ∧
      newId (s.menu.map MenuItem.id)
        = (s.menu.map MenuItem.id).foldl Nat.max 0 + 1) ∧
    ((deleteMenu u mId s).2.menu.map MenuItem.id
      = (s.menu.map MenuItem.id).filter (fun x => !(x == mId))) ∧
    ((createMenu u b ((deleteMenu u mId s).2)).2.menu.map MenuItem.id
      = (deleteMenu u mId s).2.menu.map MenuItem.id
        ++ [newId ((deleteMenu u mId s).2.menu.map MenuItem.id)]) ∧
    ((deleteMenu u mId s).2.menu.map MenuItem.id ≠ [] →
      newId ((deleteMenu u mId s).2.menu.map MenuItem.id)
        = ((deleteMenu u mId s).2.menu.map MenuItem.id).foldl Nat.max 0 + 1) := by
  refine ⟨createMenu_ids u b s hrole, newId_not_mem _, ?_, ?_, ?_, ?_,
    createMenu_ids u b _ hrole, fun h => newId_eq_max_add_one h⟩
  · intro h; rw [h]; rfl
  · intro x hx; exact mem_lt_newId hx
  · intro h
    exact ⟨foldl_max_zero_mem h, newId_eq_max_add_one h⟩
  · simp [deleteMenu, hrole, hfind, map_id_filter]

/-- C3 witness: the amended id-assignment law evaluated on the two-item
menu store. -/
theorem C3_id_assignment_witness :
    storeMenu2.menu.find? (fun m => m.id == 2 && m.partnerId == 1) = some menuItemB ∧
    ((createMenu ⟨1, Role.partner⟩ menuBodyC storeMenu2).2.menu.map MenuItem.id
      = storeMenu2.menu.map MenuItem.id
        ++ [newId (storeMenu2.menu.map MenuItem.id)]) :=
  ⟨by decide,
   (C3_id_assignment ⟨1, Role.partner⟩ menuBodyC storeMenu2 2 menuItemB rfl
      (by decide)).1⟩

/-- Delivery already bound to driver 7 (status `accepted`). -/
def deliveryBound7 : Delivery :=
  { id := 1, orderId := 1, status := "accepted", pickupAddress := "p",
    dropAddress := "q", driverId := some 7 }

/-- Pending ride of customer 5. -/
def ridePending : Ride :=
  { id := 1, customerId := 5, pickupAddress := "a", dropAddress := "b",
    vehicleType := "bike", status := "pending", createdAt := 0, driverId := none }

/-- Store with one bound delivery and one pending ride. -/
def storeBound7 : Store :=
  { emptyStore with deliveries := [deliveryBound7], rides := [ridePending] }

/-- C4 counterexample: delivery 1 is already bound to driver 7 in a
non-terminal state, yet a second accept by driver 8 rebinds `driverId`
to 8 — a reassignment path exists, refuting the claim. -/
theorem C4_counterexample :
    storeBound7.deliveries.map Delivery.driverId = [some 7] ∧
    ((acceptDelivery ⟨8, Role.driver⟩ 1 storeBound7).2.deliveries.map
        Delivery.driverId) = [some 8] := by
  decide

/-- C4 (amended): `driverId` is null at creation (rides created by
customers, deliveries spawned by order creation) and only the driver
accept operations write it; accept sets it unconditionally to the
accepting caller's id — so a second accept rebinds it to the new caller
(last write wins) — and no other delivery or ride operation
(reject/start/complete/cancel) changes any record's `driverId`. -/
theorem C4_driver_binding (uc ud : Auth) (rb : RideBody) (b : OrderBody)
    (t : Nat) (s : Store) (i : Nat) (d : Delivery) (r : Ride)
    (reason : Option String) (v : JsNum) (pid : Nat) (l : List ItemReq)
    (hc : uc.role = Role.customer) (hd : ud.role = Role.driver)
    (hpid : b.partnerId = some pid) (hpz : pid ≠ 0)
    (hitems : b.items = some l) (hne : l ≠ [])
    (hfd : s.deliveries.find? (fun x => x.id == i) = some d)
    (hfr : s.rides.find? (fun x => x.id == i) = some r) :
    ((createRide uc rb t s).2.rides.map Ride.driverId
      = s.rides.map Ride.driverId ++ [none]) ∧
    ((createOrder uc b t s).2.deliveries.map Delivery.driverId
      = s.deliveries.map Delivery.driverId ++ [none]) ∧
    ((acceptDelivery ud i s).2.deliveries.find? (fun x => x.id == i)
      = some { d with status := "accepted", driverId := some ud.id }) ∧
    ((acceptRide ud i s).2.rides.find? (fun x => x.id == i)
      = some { r with status := "ongoing", driverId := some ud.id }) ∧
    ((rejectDelivery ud i reason s).2.deliveries.map Delivery.driverId
      = s.deliveries.map Delivery.driverId) ∧
    ((startDelivery ud i s).2.deliveries.map Delivery.driverId
      = s.deliveries.map Delivery.driverId) ∧
    ((completeDelivery ud i v s).2.deliveries.map Delivery.driverId
      = s.deliveries.map Delivery.driverId) ∧
    ((cancelRide uc i s).2.rides.map Ride.driverId
      = s.rides.map Ride.driverId) ∧
    ((rejectRide ud i reason s).2.rides.map Ride.driverId
      = s.rides.map Ride.driverId) ∧
    ((startRide ud i s).2.rides.map Ride.driverId
      = s.rides.map Ride.driverId) ∧
    ((completeRide ud i v s).2.rides.map Ride.driverId
      = s.rides.map Ride.driverId) := by
  have hie : l.isEmpty = false := by
    cases l with
    | nil => exact absurd rfl hne
    | cons a as => rfl
  have hpe : (pid == 0) = false := by simpa using hpz
  refine ⟨?_, ?_, ?_, ?_, ?_, ?_, ?_, ?_, ?_, ?_, ?_⟩
  · simp [createRide, hc]
  · simp [createOrder, hc, hpid, hitems, hpe, hie]
  · simp only [acceptDelivery, hc, hd, hfd]
    rw [if_neg (by simp)]
    dsimp only
    apply find?_updateFirst _ hfd
    intro x hx
    exact hx
  · simp only [acceptRide, hd, hfr]
    rw [if_neg (by simp)]
    dsimp only
    apply find?_updateFirst _ hfr
    intro x hx
    exact hx
  · unfold rejectDelivery
    split
    · rfl
    · split
      · rfl
      · apply map_updateFirst
        intro x
        rfl
  · unfold startDelivery
    split
    · rfl
    · apply map_updateFirst
      intro x
      rfl
  · unfold completeDelivery
    split
    · rfl
    · apply map_updateFirst
      intro x
      rfl
  · unfold cancelRide
    split
    · rfl
    · split
      · rfl
      · split
        · rfl
        · apply map_updateFirst
          intro x
          rfl
  · unfold rejectRide
    split
    · rfl
    · apply map_updateFirst
      intro x
      rfl
  · unfold startRide
    split
    · rfl
    · apply map_updateFirst
      intro x
      rfl
  · unfold completeRide
    split
    · rfl
    · apply map_updateFirst
      intro x
      rfl

/-- C4 witness: the amended binding law evaluated on a concrete store
with a bound delivery and a pending ride. -/
theorem C4_driver_binding_witness :
    storeBound7.deliveries.find? (fun x => x.id == 1) = some deliveryBound7 ∧
    ((acceptDelivery ⟨8, Role.driver⟩ 1 storeBound7).2.deliveries.find?
        (fun x => x.id == 1)
      = some { deliveryBound7 with status := "accepted", driverId := some 8 }) ∧
    ((startDelivery ⟨8, Role.driver⟩ 1 storeBound7).2.deliveries.map
        Delivery.driverId = storeBound7.deliveries.map Delivery.driverId) :=
  have h := C4_driver_binding ⟨5, Role.customer⟩ ⟨8, Role.driver⟩
    ⟨⟨"a"⟩, ⟨"b"⟩, "bike"⟩
    ⟨some 1, some [⟨1, JsNum.num 2⟩], "d", "cash"⟩ 0 storeBound7 1
    deliveryBound7 ridePending none JsNum.missing 1 [⟨1, JsNum.num 2⟩]
    rfl rfl rfl (by decide) rfl (by decide) (by decide) (by decide)
  ⟨by decide, h.2.2.1, h.2.2.2.2.2.1⟩

/-- C5 counterexample: the owning partner 1 sends the menu-update body
`{ partnerId: 2 }` for menu item 1; `assign(req.body)` overwrites the
owner field, so the item's `partnerId` changes from 1 to 2 after
creation — refuting the claim that owner fields are never changed. -/
theorem C5_counterexample :
    storeMenu2.menu.map MenuItem.partnerId = [1, 1] ∧
    ((updateMenu ⟨1, Role.partner⟩ 1 { partnerId := some 2 }
        storeMenu2).2.menu.map MenuItem.partnerId) = [2, 1] := by
  decide

/-- C5 (amended): the owner fields fixed at creation are preserved by
every transition operation — `customerId` and `partnerId` on orders,
`customerId` on rides, `userId` on notifications are never changed —
and a menu item's `partnerId` is preserved by menu update exactly when
the request body does not name `partnerId`; since the update endpoint
applies the body wholesale, a body naming `partnerId` can overwrite
that owner field. -/
theorem C5_owner_fields (u : Auth) (i : Nat) (s : Store)
    (reason : Option String) (v : JsNum) (mu : MenuUpdate)
    (hmu : mu.partnerId = none) :
    ((cancelOrder u i s).2.orders.map (fun o => (o.customerId, o.partnerId))
      = s.orders.map (fun o => (o.customerId, o.partnerId))) ∧
    ((acceptOrder u i s).2.orders.map (fun o => (o.customerId, o.partnerId))
      = s.orders.map (fun o => (o.customerId, o.partnerId))) ∧
    ((rejectOrder u i reason s).2.orders.map (fun o => (o.customerId, o.partnerId))
      = s.orders.map (fun o => (o.customerId, o.partnerId))) ∧
    ((readyOrder u i s).2.orders.map (fun o => (o.customerId, o.partnerId))
      = s.orders.map (fun o => (o.customerId, o.partnerId))) ∧
    ((cancelRide u i s).2.rides.map Ride.customerId
      = s.rides.map Ride.customerId) ∧
    ((acceptRide u i s).2.rides.map Ride.customerId
      = s.rides.map Ride.customerId) ∧
    ((rejectRide u i reason s).2.rides.map Ride.customerId
      = s.rides.map Ride.customerId) ∧
    ((startRide u i s).2.rides.map Ride.customerId
      = s.rides.map Ride.customerId) ∧
    ((completeRide u i v s).2.rides.map Ride.customerId
      = s.rides.map Ride.customerId) ∧
    ((markNotificationRead u i s).2.notifications.map Notification.userId
      = s.notifications.map Notification.userId) ∧
    ((updateMenu u i mu s).2.menu.map MenuItem.partnerId
      = s.menu.map MenuItem.partnerId) := by
  refine ⟨?_, ?_, ?_, ?_, ?_, ?_, ?_, ?_, ?_, ?_, ?_⟩
  · unfold cancelOrder
    split
    · rfl
    · split
      · rfl
      · split
        · rfl
        · apply map_updateFirst
          intro x
          rfl
  · unfold acceptOrder
    split
    · rfl
    · split
      · rfl
      · split
        · rfl
        · apply map_updateFirst
          intro x
          rfl
  · unfold rejectOrder
    split
    · rfl
    · split
      · rfl
      · split
        · rfl
        · apply map_updateFirst
          intro x
          rfl
  · unfold readyOrder
    split
    · rfl
    · split
      · rfl
      · split
        · rfl
        · apply map_updateFirst
          intro x
          rfl
  · unfold cancelRide
    split
    · rfl
    · split
      · rfl
      · split
        · rfl
        · apply map_updateFirst
          intro x
          rfl
  · unfold acceptRide
    split
    · rfl
    · split
      · rfl
      · apply map_updateFirst
        intro x
        rfl
  · unfold rejectRide
    split
    · rfl
    · apply map_updateFirst
      intro x
      rfl
  · unfold startRide
    split
    · rfl
    · apply map_updateFirst
      intro x
      rfl
  · unfold completeRide
    split
    · rfl
    · apply map_updateFirst
      intro x
      rfl
  · unfold markNotificationRead
    split
    · rfl
    · split
      · rfl
      · split
        · rfl
        · apply map_updateFirst
          intro x
          rfl
  · unfold updateMenu
    split
    · rfl
    · split
      · rfl
      · apply map_updateFirst
        intro x
        simp [assignMenu, hmu]

/-- C5 witness: owner-field preservation evaluated on the two-item menu
store with a body that does not name `partnerId`. -/
theorem C5_owner_fields_witness :
    ({ name := some "kopi" : MenuUpdate }).partnerId = none ∧
    ((updateMenu ⟨1, Role.partner⟩ 1 { name := some "kopi" }
        storeMenu2).2.menu.map MenuItem.partnerId
      = storeMenu2.menu.map MenuItem.partnerId) :=
  ⟨rfl,
   (C5_owner_fields ⟨1, Role.partner⟩ 1 storeMenu2 none JsNum.missing
      { name := some "kopi" } rfl).2.2.2.2.2.2.2.2.2.2⟩

/-- Partner 1 with a concrete stored address. -/
def partner1 : Partner := { id := 1, name := "Warung", address := "Jl. Satu" }

/-- Store holding partner 1 and menu item 1. -/
def storePartner : Store :=
  { emptyStore with partners := [partner1], menu := [menuItemA] }

/-- Valid order body for partner 1 with one line of quantity 2. -/
def orderBody1 : OrderBody :=
  { partnerId := some 1, items := some [⟨1, JsNum.num 2⟩],
    deliveryAddress := "Jl. Dua", paymentMethod := "cash" }

/-- C2: a successful order creation appends exactly one delivery whose
`orderId` is the id assigned to the new order, whose status is `ready`,
whose `driverId` is null, and whose `pickupAddress` is the partner's
address as stored at that instant; a later partner-profile update
(the only operation that edits the partner's address) never touches the
deliveries collection, so the copied address is frozen. -/
theorem C2_order_spawns_delivery (u : Auth) (b : OrderBody) (t : Nat)
    (s : Store) (pid : Nat) (l : List ItemReq) (P : Partner) (v : Auth)
    (pb : PartnerUpdate)
    (hrole : u.role = Role.customer)
    (hpid : b.partnerId = some pid) (hpz : pid ≠ 0)
    (hitems : b.items = some l) (hne : l ≠ [])
    (hP : s.partners.find? (fun p => p.id == pid) = some P) :
    ((createOrder u b t s).2.deliveries = s.deliveries ++
      [{ id := newId (s.deliveries.map Delivery.id),
         orderId := newId (s.orders.map Order.id), status := "ready",
         pickupAddress := P.address, dropAddress := b.deliveryAddress,
         driverId := none }]) ∧
    ((createOrder u b t s).2.orders.map Order.id
      = s.orders.map Order.id ++ [newId (s.orders.map Order.id)]) ∧
    ((putPartnerProfile v pb (createOrder u b t s).2).2.deliveries
      = (createOrder u b t s).2.deliveries) := by
  have hie : l.isEmpty = false := by
    cases l with
    | nil => exact absurd rfl hne
    | cons a as => rfl
  have hpe : (pid == 0) = false := by simpa using hpz
  refine ⟨?_, ?_, putPartnerProfile_deliveries v pb _⟩
  · simp [createOrder, hrole, hpid, hitems, hpe, hie, hP]
  · simp [createOrder, hrole, hpid, hitems, hpe, hie]

/-- C2 witness: the spawned delivery evaluated on a store holding
partner 1. -/
theorem C2_order_spawns_delivery_witness :
    storePartner.partners.find? (fun p => p.id == 1) = some partner1 ∧
    ((createOrder ⟨7, Role.customer⟩ orderBody1 0 storePartner).2.deliveries
      = storePartner.deliveries ++
        [{ id := newId (storePartner.deliveries.map Delivery.id),
           orderId := newId (storePartner.orders.map Order.id),
           status := "ready", pickupAddress := partner1.address,
           dropAddress := orderBody1.deliveryAddress, driverId := none }]) :=
  ⟨by decide,
   (C2_order_spawns_delivery ⟨7, Role.customer⟩ orderBody1 0 storePartner 1
      [⟨1, JsNum.num 2⟩] partner1 ⟨1, Role.partner⟩ { address := some "new" }
      rfl rfl (by decide) rfl (by decide) (by decide)).1⟩

/-- C6: order creation by a customer rejects a body whose `partnerId`
is absent or whose `items` is absent or empty with BadRequest and an
unchanged store; otherwise each line is resolved against the menu by
`(menuId, partnerId)` — an unmatched line prices at 0 with name
"Unknown" instead of failing the order — and the stored order's total
is the sum over all line items of resolved price times quantity. -/
theorem C6_create_order_validation (u : Auth) (b : OrderBody) (t : Nat)
    (s : Store) (pid : Nat) (l : List ItemReq) (it : ItemReq) (m : MenuItem)
    (hrole : u.role = Role.customer) :
    (b.partnerId = none → createOrder u b t s = (.error .badRequest, s)) ∧
    (b.items = none → createOrder u b t s = (.error .badRequest, s)) ∧
    (b.items = some [] → createOrder u b t s = (.error .badRequest, s)) ∧
    (s.menu.find? (fun x => x.id == it.menuId && x.partnerId == pid) = none →
      detailedItem s.menu pid it
        = { menuId := it.menuId, name := "Unknown",
            qty := it.quantity.orZero, price := 0 }) ∧
    (s.menu.find? (fun x => x.id == it.menuId && x.partnerId == pid) = some m →
      detailedItem s.menu pid it
        = { menuId := it.menuId, name := m.name,
            qty := it.quantity.orZero, price := m.price }) ∧
    (b.partnerId = some pid → pid ≠ 0 → b.items = some l → l ≠ [] →
      (createOrder u b t s).1
          = Except.ok
              { id := newId (s.orders.map Order.id), customerId := u.id,
                partnerId := pid,
                total := ((l.map (detailedItem s.menu pid)).map
                    (fun li => li.price * li.qty)).sum,
                status := "pending", createdAt := t } ∧
        (createOrder u b t s).2.orders
          = s.orders ++
            [{ id := newId (s.orders.map Order.id), customerId := u.id,
               partnerId := pid, items := l.map (detailedItem s.menu pid),
               total := ((l.map (detailedItem s.menu pid)).map
                   (fun li => li.price * li.qty)).sum,
               status := "pending", deliveryAddress := b.deliveryAddress,
               paymentMethod := b.paymentMethod, createdAt := t }]) := by
  refine ⟨?_, ?_, ?_, ?_, ?_, ?_⟩
  · intro h
    simp [createOrder, hrole, h]
  · intro h
    cases hbp : b.partnerId <;> simp [createOrder, hrole, h, hbp]
  · intro h
    cases hbp : b.partnerId <;> simp [createOrder, hrole, h, hbp]
  · intro h
    simp [detailedItem, h]
  · intro h
    simp [detailedItem, h]
  · intro h1 h2 h3 h4
    have hie : l.isEmpty = false := by
      cases l with
      | nil => exact absurd rfl h4
      | cons a as => rfl
    have hpe : (pid == 0) = false := by simpa using h2
    constructor
    · simp [createOrder, hrole, h1, h3, hpe, hie, foldl_detailed]
    · simp [createOrder, hrole, h1, h3, hpe, hie, foldl_detailed]

/-- C6 witness: the success branch evaluated on the store holding
partner 1 and menu item 1 (price 10, quantity 2, total 20). -/
theorem C6_create_order_validation_witness :
    ((createOrder ⟨7, Role.customer⟩ orderBody1 0 storePartner).2.orders
      = storePartner.orders ++
        [{ id := newId (storePartner.orders.map Order.id), customerId := 7,
           partnerId := 1,
           items := [⟨1, JsNum.num 2⟩].map (detailedItem storePartner.menu 1),
           total := (([⟨1, JsNum.num 2⟩].map
               (detailedItem storePartner.menu 1)).map
                 (fun li => li.price * li.qty)).sum,
           status := "pending", deliveryAddress := orderBody1.deliveryAddress,
           paymentMethod := orderBody1.paymentMethod, createdAt := 0 }]) ∧
    (([⟨1, JsNum.num 2⟩].map (detailedItem storePartner.menu 1)).map
        (fun li => li.price * li.qty)).sum = 20 :=
  ⟨((C6_create_order_validation ⟨7, Role.customer⟩ orderBody1 0 storePartner 1
      [⟨1, JsNum.num 2⟩] ⟨1, JsNum.num 2⟩ menuItemA
      rfl).2.2.2.2.2 rfl (by decide) rfl (by decide)).2,
   by decide⟩

/-- Order of customer 5 at partner 6. -/
def orderA : Order :=
  { id := 1, customerId := 5, partnerId := 6, items := [], total := 0,
    status := "pending", deliveryAddress := "x", paymentMethod := "cash",
    createdAt := 0 }

/-- Store holding the order of customer 5 and the ride of customer 5. -/
def storeOwn : Store :=
  { emptyStore with orders := [orderA], rides := [ridePending] }

/-- C7: a customer or partner caller hitting a detail or transition
endpoint of an existing order or ride whose relevant owner field is
another account's id receives Forbidden with the store untouched; the
Forbidden error carries no resource data (the error constructors of the
model carry no payload, mirroring the constant `{error}` JSON bodies of
the source), so the resource body is never leaked. Customers and
partners have no delivery endpoints, so deliveries are covered
vacuously. -/
theorem C7_forbidden_no_leak (uc up : Auth) (io ir : Nat) (s : Store)
    (o : Order) (rd : Ride) (reason : Option String)
    (hc : uc.role = Role.customer) (hp : up.role = Role.partner)
    (ho : s.orders.find? (fun x => x.id == io) = some o)
    (hr : s.rides.find? (fun x => x.id == ir) = some rd)
    (hoc : o.customerId ≠ uc.id) (hop : o.partnerId ≠ up.id)
    (hrc : rd.customerId ≠ uc.id) :
    getCustomerOrder uc io s = (.error .forbidden, s) ∧
    cancelOrder uc io s = (.error .forbidden, s) ∧
    getCustomerRide uc ir s = (.error .forbidden, s) ∧
    cancelRide uc ir s = (.error .forbidden, s) ∧
    getPartnerOrder up io s = (.error .forbidden, s) ∧
    acceptOrder up io s = (.error .forbidden, s) ∧
    rejectOrder up io reason s = (.error .forbidden, s) ∧
    readyOrder up io s = (.error .forbidden, s) := by
  refine ⟨?_, ?_, ?_, ?_, ?_, ?_, ?_, ?_⟩ <;>
    simp [getCustomerOrder, cancelOrder, getCustomerRide, cancelRide,
      getPartnerOrder, acceptOrder, rejectOrder, readyOrder,
      hc, hp, ho, hr, hoc, hop, hrc]

/-- C7 witness: the Forbidden responses evaluated for non-owning
customer 2 and non-owning partner 3. -/
theorem C7_forbidden_no_leak_witness :
    storeOwn.orders.find? (fun x => x.id == 1) = some orderA ∧
    getCustomerOrder ⟨2, Role.customer⟩ 1 storeOwn
      = (.error .forbidden, storeOwn) ∧
    acceptOrder ⟨3, Role.partner⟩ 1 storeOwn = (.error .forbidden, storeOwn) :=
  have h := C7_forbidden_no_leak ⟨2, Role.customer⟩ ⟨3, Role.partner⟩ 1 1
    storeOwn orderA ridePending none rfl rfl (by decide) (by decide)
    (by decide) (by decide) (by decide)
  ⟨by decide, h.1, h.2.2.2.2.2.1⟩

/-- C8: the driver's delivery listing contains exactly the deliveries
whose status is `ready` together with those whose `driverId` equals the
caller's id; a delivery in status `accepted` bound to a different
driver is never in the returned list. -/
theorem C8_driver_delivery_pool (u : Auth) (s : Store) (out : List Delivery)
    (d : Delivery) (e : Nat)
    (hrole : u.role = Role.driver)
    (hout : (listDeliveries u s).1 = Except.ok out) :
    (d ∈ out ↔ d ∈ s.deliveries ∧
      (d.status = "ready" ∨ d.driverId = some u.id)) ∧
    (d.driverId = some e → e ≠ u.id → d.status = "accepted" → d ∉ out) := by
  have h2 : (listDeliveries u s).1
      = Except.ok (s.deliveries.filter
          (fun x => x.status == "ready" || x.driverId == some u.id)) := by
    simp [listDeliveries, hrole]
  rw [hout] at h2
  injection h2 with h3
  constructor
  · rw [h3, List.mem_filter]
    simp
  · intro hdid hne hst hmem
    rw [h3] at hmem
    rcases List.mem_filter.mp hmem with ⟨hm, hpred⟩
    simp [hst, hdid] at hpred
    exact hne hpred

/-- C8 witness: the pool evaluated for driver 8 on the store whose only
delivery is accepted by driver 7. -/
theorem C8_driver_delivery_pool_witness :
    (listDeliveries ⟨8, Role.driver⟩ storeBound7).1 = Except.ok [] ∧
    deliveryBound7 ∉ ([] : List Delivery) :=
  ⟨rfl,
   (C8_driver_delivery_pool ⟨8, Role.driver⟩ storeBound7 [] deliveryBound7 7
      rfl rfl).2 rfl (by decide) rfl⟩

/-- C9: a missing or non-numeric numeric request field is coerced to 0
and the operation succeeds instead of rejecting: complete-delivery
stores `collectedAmount` 0, complete-ride stores `fareCollected` 0,
menu creation stores price 0, and an order line with such a quantity is
stored with `qty` 0 (shown both for the resolution function and for a
created one-line order). -/
theorem C9_numeric_coercion (ud up uc : Auth) (i : Nat) (s : Store)
    (v : JsNum) (d : Delivery) (r : Ride) (mb : MenuBody) (b : OrderBody)
    (t : Nat) (pid : Nat) (it : ItemReq)
    (hd : ud.role = Role.driver) (hp : up.role = Role.partner)
    (hc : uc.role = Role.customer)
    (hv : v = JsNum.missing ∨ v = JsNum.nonNumeric) :
    v.orZero = 0 ∧
    (completeDelivery ud i v s).1 = Except.ok ("Delivery completed", 0) ∧
    (s.deliveries.find? (fun x => x.id == i) = some d →
      (completeDelivery ud i v s).2.deliveries.find? (fun x => x.id == i)
        = some { d with status := "completed", collectedAmount := some 0 }) ∧
    (completeRide ud i v s).1 = Except.ok ("Ride completed", 0) ∧
    (s.rides.find? (fun x => x.id == i) = some r →
      (completeRide ud i v s).2.rides.find? (fun x => x.id == i)
        = some { r with status := "completed", fareCollected := some 0 }) ∧
    (mb.price = v →
      (createMenu up mb s).2.menu = s.menu ++
        [{ id := newId (s.menu.map MenuItem.id), name := mb.name, price := 0,
           description := orEmpty mb.description,
           category := orEmpty mb.category, partnerId := up.id }]) ∧
    (it.quantity = v → (detailedItem s.menu pid it).qty = 0) ∧
    (b.partnerId = some pid → pid ≠ 0 → b.items = some [it] →
      it.quantity = v →
      (createOrder uc b t s).2.orders = s.orders ++
        [{ id := newId (s.orders.map Order.id), customerId := uc.id,
           partnerId := pid, items := [detailedItem s.menu pid it],
           total := 0, status := "pending",
           deliveryAddress := b.deliveryAddress,
           paymentMethod := b.paymentMethod, createdAt := t }]) := by
  have hz : v.orZero = 0 := by
    rcases hv with h | h <;> rw [h] <;> rfl
  refine ⟨hz, ?_, ?_, ?_, ?_, ?_, ?_, ?_⟩
  · simp [completeDelivery, hd, hz]
  · intro hfd
    simp only [completeDelivery, hd, hz]
    rw [if_neg (by simp)]
    dsimp only
    apply find?_updateFirst _ hfd
    intro x hx
    exact hx
  · simp [completeRide, hd, hz]
  · intro hfr
    simp only [completeRide, hd, hz]
    rw [if_neg (by simp)]
    dsimp only
    apply find?_updateFirst _ hfr
    intro x hx
    exact hx
  · intro hmb
    simp [createMenu, hp, hmb, hz]
  · intro hq
    unfold detailedItem
    split <;> simp [hq, hz]
  · intro h1 h2 h3 h4
    have hpe : (pid == 0) = false := by simpa using h2
    have hqz : it.quantity.orZero = 0 := by rw [h4]; exact hz
    simp [createOrder, hc, h1, h3, hpe, foldl_detailed, detailedItem, hqz]
    split <;> simp [hqz]

/-- C9 witness: the coercions evaluated with a non-numeric
`collectedAmount` on the store with delivery 1 and ride 1. -/
theorem C9_numeric_coercion_witness :
    JsNum.nonNumeric.orZero = 0 ∧
    (completeDelivery ⟨8, Role.driver⟩ 1 JsNum.nonNumeric storeBound7).1
      = Except.ok ("Delivery completed", 0) ∧
    ((completeDelivery ⟨8, Role.driver⟩ 1 JsNum.nonNumeric
        storeBound7).2.deliveries.find? (fun x => x.id == 1)
      = some { deliveryBound7 with status := "completed", collectedAmount := some 0 }) :=
  have h := C9_numeric_coercion ⟨8, Role.driver⟩ ⟨1, Role.partner⟩
    ⟨7, Role.customer⟩ 1 storeBound7 JsNum.nonNumeric deliveryBound7
    ridePending menuBodyC orderBody1 0 1 ⟨1, JsNum.nonNumeric⟩
    rfl rfl rfl (Or.inr rfl)
  ⟨h.1, h.2.1, h.2.2.1 (by decide)⟩

/-- C10: the admin register handler runs with no credential and no role
check (it takes no authenticated caller at all); with both email and
password present and non-empty it appends an account carrying
`newId` of the existing admin ids — max(existing)+1, or 1 when the
collection is empty — and answers with the record minus its password
field (the response shape has no password field); with either field
missing or empty it answers BadRequest and leaves the collection
unchanged. -/
theorem C10_admin_register (b1 b2 : AdminRegBody) (s1 s2 : Store)
    (e p : String)
    (hbad : b1.email = none ∨ b1.email = some "" ∨ b1.password = none ∨
      b1.password = some "")
    (he : b2.email = some e) (hpw : b2.password = some p)
    (hne : e ≠ "") (hnp : p ≠ "") :
    adminRegister b1 s1 = (.error .badRequest, s1) ∧
    adminRegister b2 s2
      = (.ok { id := newId (s2.admin.map AdminAccount.id), email := e,
               name := b2.name },
         { s2 with admin := s2.admin ++
            [{ id := newId (s2.admin.map AdminAccount.id), email := e,
               password := p, name := b2.name }] }) ∧
    newId (s2.admin.map AdminAccount.id) ∉ s2.admin.map AdminAccount.id ∧
    (s2.admin.map AdminAccount.id = []
      → newId (s2.admin.map AdminAccount.id) = 1) ∧
    (s2.admin.map AdminAccount.id ≠ [] →
      (s2.admin.map AdminAccount.id).foldl Nat.max 0
          ∈ s2.admin.map AdminAccount.id ∧
      (∀ x ∈ s2.admin.map AdminAccount.id,
        x ≤ (s2.admin.map AdminAccount.id).foldl Nat.max 0) ∧
      newId (s2.admin.map AdminAccount.id)
        = (s2.admin.map AdminAccount.id).foldl Nat.max 0 + 1) := by
  refine ⟨?_, ?_, newId_not_mem _, ?_, ?_⟩
  · rcases hbad with h | h | h | h
    · cases hp2 : b1.password <;> simp [adminRegister, h, hp2]
    · cases hp2 : b1.password <;> simp [adminRegister, h, hp2]
    · cases he2 : b1.email <;> simp [adminRegister, h, he2]
    · cases he2 : b1.email <;> simp [adminRegister, h, he2]
  · simp [adminRegister, he, hpw, hne, hnp]
  · intro h
    rw [h]
    rfl
  · intro h
    exact ⟨foldl_max_zero_mem h, fun x hx => mem_le_foldl_max hx 0,
      newId_eq_max_add_one h⟩

/-- C10 witness: a rejected and an accepted registration evaluated on
the empty store. -/
theorem C10_admin_register_witness :
    adminRegister { email := none, password := some "pw" } emptyStore
      = (.error .badRequest, emptyStore) ∧
    adminRegister { email := some "a@b.c", password := some "pw" } emptyStore
      = (.ok { id := newId (emptyStore.admin.map AdminAccount.id),
               email := "a@b.c", name := none },
         { emptyStore with admin := emptyStore.admin ++
            [{ id := newId (emptyStore.admin.map AdminAccount.id),
               email := "a@b.c", password := "pw", name := none }] }) :=
  have h := C10_admin_register { email := none, password := some "pw" }
    { email := some "a@b.c", password := some "pw" } emptyStore emptyStore
    "a@b.c" "pw" (Or.inl rfl) rfl rfl (by decide) (by decide)
  ⟨h.1, h.2.1⟩

end PidieRide
